import Mathlib

/-!
Verification development for the Reachy Mini Spectacles controller.

This file gives a shallow embedding of the look-at pose synthesis pipeline of
`src/Assets/Scripts/ReachyMiniController.ts` (the functions
`updateLookAtTarget`, `computeDesiredAngles`, `computeWobble`, `dampenChange`,
`clamp`, `sendTargetPose`, `setState`, `startLookAtTracking`,
`startAttentive2Loop` / `playAttentive2Loop` / `checkMoveCompletion`) and of
the request bodies built by the daemon HTTP interface (`DaemonInterface.goto`
and `DaemonInterface.setTarget`), and proves or refutes the specification
claims about them.

JavaScript numbers are modelled as real numbers.  Scene-graph quantities
(the world position of the reference frame plus its rotated offset, and the
world position of the target entity) are passed as explicit `Vec3` arguments;
the wall clock `getTime()` is passed as an explicit `time` argument.  The
null-collaborator guards at the top of the TypeScript methods (missing
daemon / button / entity references) are configuration errors that abort the
tick before any computation; the embedding models the computation that runs
when the references are present.
-/

noncomputable section

/-- Three-dimensional vector, modelling the engine `vec3`. -/
structure Vec3 where
  x : ℝ
  y : ℝ
  z : ℝ

/-- Pose interface from `DaemonInterface`: position (meters) and orientation
(radians). -/
structure XYZRPYPose where
  x : ℝ
  y : ℝ
  z : ℝ
  roll : ℝ
  pitch : ℝ
  yaw : ℝ

/-- Smoothing constant for head yaw (source field `HEAD_YAW_SMOOTHING`). -/
def HEAD_YAW_SMOOTHING : ℝ := 0.06

/-- Smoothing constant for head pitch (source field `HEAD_PITCH_SMOOTHING`). -/
def HEAD_PITCH_SMOOTHING : ℝ := 0.04

/-- Smoothing constant for the body follow (source field `BODY_SMOOTHING`). -/
def BODY_SMOOTHING : ℝ := 0.04

/-- Smoothing constant for the antennas (source field `ANTENNA_SMOOTHING`). -/
def ANTENNA_SMOOTHING : ℝ := 0.025

/-- Smoothing constant for motion intensity (source field
`MOTION_INTENSITY_SMOOTHING`). -/
def MOTION_INTENSITY_SMOOTHING : ℝ := 0.05

/-- Maximum per-frame head yaw change: 3 degrees in radians. -/
def MAX_YAW_CHANGE_PER_FRAME : ℝ := 3 * Real.pi / 180

/-- Maximum per-frame head pitch change: 1.5 degrees in radians. -/
def MAX_PITCH_CHANGE_PER_FRAME : ℝ := 1.5 * Real.pi / 180

/-- Maximum per-frame antenna change: 2 degrees in radians. -/
def MAX_ANTENNA_CHANGE_PER_FRAME : ℝ := 2 * Real.pi / 180

/-- Mechanical pitch lower limit: -30 degrees in radians. -/
def MIN_PITCH : ℝ := -30 * Real.pi / 180

/-- Mechanical pitch upper limit: +20 degrees in radians. -/
def MAX_PITCH : ℝ := 20 * Real.pi / 180

/-- Head yaw limit relative to the body: 35 degrees in radians. -/
def MAX_HEAD_YAW : ℝ := 35 * Real.pi / 180

/-- Absolute body yaw limit: 160 degrees in radians. -/
def MAX_BODY_YAW : ℝ := 160 * Real.pi / 180

/-- Antenna angle limit: 45 degrees in radians. -/
def MAX_ANTENNA : ℝ := 45 * Real.pi / 180

/-- Head roll limit: 10 degrees in radians. -/
def MAX_ROLL : ℝ := 10 * Real.pi / 180

/-- Pitch wobble amplitude: 6 degrees in radians. -/
def PITCH_WOBBLE_AMPLITUDE : ℝ := 6 * Real.pi / 180

/-- Yaw wobble amplitude: 5 degrees in radians. -/
def YAW_WOBBLE_AMPLITUDE : ℝ := 5 * Real.pi / 180

/-- Roll wobble amplitude: 8 degrees in radians. -/
def ROLL_WOBBLE_AMPLITUDE : ℝ := 8 * Real.pi / 180

/-- Base antenna wobble amplitude: 8 degrees in radians. -/
def ANTENNA_BASE_AMPLITUDE : ℝ := 8 * Real.pi / 180

/-- Extra antenna amplitude when in motion: 20 degrees in radians. -/
def ANTENNA_MOTION_AMPLITUDE : ℝ := 20 * Real.pi / 180

/-- Base wobble frequency (source field `WOBBLE_SPEED`). -/
def WOBBLE_SPEED : ℝ := 0.4

/-- Source helper `clamp(val, min, max) = Math.max(min, Math.min(max, val))`. -/
def clamp (val lo hi : ℝ) : ℝ := max lo (min hi val)

/-- Source helper `dampenChange(delta, maxDelta) = clamp(delta, -maxDelta, maxDelta)`. -/
def dampenChange (delta maxDelta : ℝ) : ℝ := clamp delta (-maxDelta) maxDelta

/-- Source `computeWobble`: three layered sine waves at related frequencies. -/
def computeWobble (t amplitude speedMultiplier phaseOffset : ℝ) : ℝ :=
  let speed := WOBBLE_SPEED * speedMultiplier
  amplitude * (
    0.5 * Real.sin (speed * t + phaseOffset) +
    0.3 * Real.sin (speed * 1.7 * t + phaseOffset * 0.7) +
    0.2 * Real.sin (speed * 2.3 * t + phaseOffset * 1.3))

/-- JavaScript `Math.atan2 y x` on real arguments (quadrant-aware arctangent). -/
def atan2 (y x : ℝ) : ℝ :=
  if 0 < x then Real.arctan (y / x)
  else if x < 0 ∧ 0 ≤ y then Real.arctan (y / x) + Real.pi
  else if x < 0 then Real.arctan (y / x) - Real.pi
  else if 0 < y then Real.pi / 2
  else if y < 0 then -(Real.pi / 2)
  else 0

/-- Source `computeDesiredAngles`: desired yaw and pitch (as a pair
`(yaw, pitch)`) to look from `centerPos` (the reference world position plus
the rotated entity offset) toward `targetPos`, given the current head yaw
(returned unchanged in the near-singular case). -/
def computeDesiredAngles (centerPos targetPos : Vec3) (headYaw : ℝ) : ℝ × ℝ :=
  let direction : Vec3 :=
    ⟨targetPos.x - centerPos.x, targetPos.y - centerPos.y, targetPos.z - centerPos.z⟩
  let horizontalDist := Real.sqrt (direction.x * direction.x + direction.z * direction.z)
  if horizontalDist < 0.001 then
    (headYaw, if direction.y > 0 then MAX_PITCH else MIN_PITCH)
  else
    (atan2 direction.x direction.z, -(atan2 direction.y horizontalDist))

/-- The mutable look-at tracking state of `ReachyMiniController` (the fields
`headYaw` … `lastHeadPitch`). -/
structure TrackingState where
  headYaw : ℝ
  headPitch : ℝ
  headRoll : ℝ
  bodyYaw : ℝ
  leftAntenna : ℝ
  rightAntenna : ℝ
  trackingStartTime : ℝ
  motionIntensity : ℝ
  lastHeadYaw : ℝ
  lastHeadPitch : ℝ

/-- Argument record of a `daemon.setTarget` call as issued by
`sendTargetPose`: the head pose, the body yaw, and the antenna pair in the
order `[rightAntenna, leftAntenna]` used by the controller. -/
structure SetTargetCall where
  headPose : XYZRPYPose
  bodyYaw : ℝ
  antennas : ℝ × ℝ

/-- Source `sendTargetPose`: builds the pose transmitted to the robot, with
wobble added on top of the smoothed state and the final pitch re-clamped. -/
def sendTargetPose (s : TrackingState) (pitchWobble yawWobble : ℝ) : SetTargetCall :=
  let finalPitch := clamp (s.headPitch + pitchWobble) MIN_PITCH MAX_PITCH
  let finalYaw := s.headYaw + yawWobble
  let finalRoll := clamp s.headRoll (-MAX_ROLL) MAX_ROLL
  { headPose := { x := 0, y := 0, z := 0, roll := finalRoll, pitch := finalPitch, yaw := finalYaw },
    bodyYaw := s.bodyYaw,
    antennas := (s.rightAntenna, s.leftAntenna) }

/-- Source `updateLookAtTarget`: one tick of the look-at pipeline.  Takes the
previous tracking state, the current wall-clock time, and the two scene
positions consumed by `computeDesiredAngles`; returns the next tracking state
together with the `setTarget` call issued at the end of the tick. -/
def updateLookAtTarget (s : TrackingState) (time : ℝ) (centerPos targetPos : Vec3) :
    TrackingState × SetTargetCall :=
  let t := time - s.trackingStartTime
  let desiredAngles := computeDesiredAngles centerPos targetPos s.headYaw
  let yawDelta :=
    dampenChange ((desiredAngles.1 - s.headYaw) * HEAD_YAW_SMOOTHING) MAX_YAW_CHANGE_PER_FRAME
  let pitchDelta :=
    dampenChange ((desiredAngles.2 - s.headPitch) * HEAD_PITCH_SMOOTHING) MAX_PITCH_CHANGE_PER_FRAME
  let headYaw1 := s.headYaw + yawDelta
  let headPitch1 := s.headPitch + pitchDelta
  let headVelocity :=
    Real.sqrt ((headYaw1 - s.lastHeadYaw) ^ 2 + (headPitch1 - s.lastHeadPitch) ^ 2)
  let targetIntensity := clamp (headVelocity / (5 * Real.pi / 180)) 0 1
  let motionIntensity1 :=
    s.motionIntensity + (targetIntensity - s.motionIntensity) * MOTION_INTENSITY_SMOOTHING
  let pitchWobble := computeWobble t PITCH_WOBBLE_AMPLITUDE 1.0 0
  let yawWobble := computeWobble t YAW_WOBBLE_AMPLITUDE 0.7 1.5
  let rollWobble := computeWobble t ROLL_WOBBLE_AMPLITUDE 0.35 3.0
  let headRoll1 := rollWobble
  let headPitch2 := clamp headPitch1 MIN_PITCH MAX_PITCH
  let relativeYaw := headYaw1 - s.bodyYaw
  let followStrength :=
    if |relativeYaw| > MAX_HEAD_YAW * 0.5 then BODY_SMOOTHING * 2 else BODY_SMOOTHING
  let bodyYaw1 :=
    if |relativeYaw| > MAX_HEAD_YAW then
      let excess := |relativeYaw| - MAX_HEAD_YAW
      s.bodyYaw +
        dampenChange (Real.sign relativeYaw * excess * BODY_SMOOTHING * 8) MAX_YAW_CHANGE_PER_FRAME
    else
      s.bodyYaw + relativeYaw * followStrength
  let bodyYaw2 := clamp bodyYaw1 (-MAX_BODY_YAW) MAX_BODY_YAW
  let maxTotalYaw := MAX_BODY_YAW + MAX_HEAD_YAW
  let headYaw2 := clamp headYaw1 (-maxTotalYaw) maxTotalYaw
  let antennaAmplitude := ANTENNA_BASE_AMPLITUDE + motionIntensity1 * ANTENNA_MOTION_AMPLITUDE
  let leftAntennaWobble := computeWobble t antennaAmplitude 0.8 0.5
  let rightAntennaWobble := computeWobble t antennaAmplitude 0.6 2.5
  let desiredLeftAntenna := leftAntennaWobble + headYaw2 * 0.2
  let desiredRightAntenna := rightAntennaWobble - headYaw2 * 0.2
  let leftDelta :=
    dampenChange ((desiredLeftAntenna - s.leftAntenna) * ANTENNA_SMOOTHING)
      MAX_ANTENNA_CHANGE_PER_FRAME
  let rightDelta :=
    dampenChange ((desiredRightAntenna - s.rightAntenna) * ANTENNA_SMOOTHING)
      MAX_ANTENNA_CHANGE_PER_FRAME
  let leftAntenna1 := clamp (s.leftAntenna + leftDelta) (-MAX_ANTENNA) MAX_ANTENNA
  let rightAntenna1 := clamp (s.rightAntenna + rightDelta) (-MAX_ANTENNA) MAX_ANTENNA
  let nextState : TrackingState :=
    { headYaw := headYaw2, headPitch := headPitch2, headRoll := headRoll1,
      bodyYaw := bodyYaw2, leftAntenna := leftAntenna1, rightAntenna := rightAntenna1,
      trackingStartTime := s.trackingStartTime, motionIntensity := motionIntensity1,
      lastHeadYaw := headYaw1, lastHeadPitch := headPitch1 }
  (nextState, sendTargetPose nextState pitchWobble yawWobble)

/-- The tracking state written by `startLookAtTracking` when it resets:
all angles and intensities zero, `trackingStartTime` set to the current time. -/
def initialTrackingState (now : ℝ) : TrackingState :=
  { headYaw := 0, headPitch := 0, headRoll := 0, bodyYaw := 0,
    leftAntenna := 0, rightAntenna := 0, trackingStartTime := now,
    motionIntensity := 0, lastHeadYaw := 0, lastHeadPitch := 0 }

/-- Tracking states reachable by the look-at loop: the freshly reset state,
closed under ticks of `updateLookAtTarget` with arbitrary times and targets. -/
inductive ReachableTracking (t0 : ℝ) : TrackingState → Prop where
  | init : ReachableTracking t0 (initialTrackingState t0)
  | step (s : TrackingState) (time : ℝ) (centerPos targetPos : Vec3) :
      ReachableTracking t0 s →
      ReachableTracking t0 (updateLookAtTarget s time centerPos targetPos).1

/-- The mechanical-limit invariants of the tracking state stated in the spec
data model (section 3). -/
def StateInvariant (s : TrackingState) : Prop :=
  MIN_PITCH ≤ s.headPitch ∧ s.headPitch ≤ MAX_PITCH ∧
  |s.bodyYaw| ≤ MAX_BODY_YAW ∧
  |s.leftAntenna| ≤ MAX_ANTENNA ∧
  |s.rightAntenna| ≤ MAX_ANTENNA ∧
  |s.headYaw| ≤ MAX_BODY_YAW + MAX_HEAD_YAW

/-- Head-relative-yaw excess of a tracking state: how far `headYaw - bodyYaw`
is beyond the head-relative limit (negative when within the limit). -/
def relExcess (s : TrackingState) : ℝ := |s.headYaw - s.bodyYaw| - MAX_HEAD_YAW

/-- Proof-support abbreviation: the body-follow computation of
`updateLookAtTarget` as a function of the previous head yaw `h`, the previous
body yaw `b`, and the (already dampened) head yaw delta `D` applied this tick.
It is definitionally equal to the `bodyYaw1` computed inside
`updateLookAtTarget`. -/
def bodyNext (h b D : ℝ) : ℝ :=
  if |h + D - b| > MAX_HEAD_YAW then
    b + dampenChange (Real.sign (h + D - b) * (|h + D - b| - MAX_HEAD_YAW) * BODY_SMOOTHING * 8)
      MAX_YAW_CHANGE_PER_FRAME
  else
    b + (h + D - b) * (if |h + D - b| > MAX_HEAD_YAW * 0.5 then BODY_SMOOTHING * 2 else BODY_SMOOTHING)

/-- State of the idle (attentive2) loop driver: the fields
`isAttentive2Looping`, `attentive2MoveUuid`, `lastMoveCheckTime`,
`moveStartTime` of `ReachyMiniController`. -/
structure IdleLoopState where
  isAttentive2Looping : Bool
  attentive2MoveUuid : Option String
  lastMoveCheckTime : ℝ
  moveStartTime : ℝ

/-- Source field `moveCheckInterval`: poll throttle of 100 ms. -/
def moveCheckInterval : ℝ := 0.1

/-- Source `playAttentive2Loop`: one launch attempt of the recorded move.
`playResult` is the outcome of the awaited `daemon.playRecordedMove` call:
`Except.ok uuid` on HTTP 200, `Except.error ()` when the call throws.  On
success the returned uuid and both timestamps are stored; on failure the
looping flag is kept and only `moveStartTime` is reset (the catch block). -/
def playAttentive2Loop (s : IdleLoopState) (now : ℝ) (playResult : Except Unit String) :
    IdleLoopState :=
  if s.isAttentive2Looping = false then s
  else
    match playResult with
    | Except.ok uuid =>
        { s with attentive2MoveUuid := some uuid, lastMoveCheckTime := now, moveStartTime := now }
    | Except.error _ => { s with moveStartTime := now }

/-- Source `checkMoveCompletion`: the per-frame completion poll.
`runningQuery` models `daemon.getRunningMoves`: `none` when the method is
absent (fallback branch), `some (Except.ok uuids)` when the query succeeds,
`some (Except.error ())` when it throws.  `playResult` is the outcome of the
relaunch attempt, when one is made. -/
def checkMoveCompletion (s : IdleLoopState) (currentTime : ℝ)
    (runningQuery : Option (Except Unit (List String)))
    (playResult : Except Unit String) : IdleLoopState :=
  if s.isAttentive2Looping = false ∨ s.attentive2MoveUuid = none then s
  else if currentTime - s.lastMoveCheckTime < moveCheckInterval then s
  else
    let s1 := { s with lastMoveCheckTime := currentTime }
    match runningQuery with
    | some (Except.ok runningMoves) =>
        if (match s1.attentive2MoveUuid with
            | some u => runningMoves.contains u
            | none => false) then s1
        else if s1.isAttentive2Looping then playAttentive2Loop s1 currentTime playResult else s1
    | some (Except.error _) =>
        if 5.0 ≤ currentTime - s1.moveStartTime ∧ s1.isAttentive2Looping then
          playAttentive2Loop s1 currentTime playResult
        else s1
    | none =>
        if 5.0 ≤ currentTime - s1.moveStartTime ∧ s1.isAttentive2Looping then
          playAttentive2Loop s1 currentTime playResult
        else s1

/-- State of the idle loop right after `startAttentive2Loop` sets the looping
flag on a fresh controller: the looping flag is set, no move uuid has ever
been recorded (the field is initialised to `null` and is also nulled by
`stopAttentive2Loop`). -/
def idleStartState : IdleLoopState :=
  { isAttentive2Looping := true, attentive2MoveUuid := none,
    lastMoveCheckTime := 0, moveStartTime := 0 }

/-- The controller states (source enum `RobotState`). -/
inductive RobotState where
  | Uninitialized
  | Idle
  | LookAtTarget
deriving DecidableEq

/-- Entry and exit actions performed by `setState` transitions.
`stopIdleLoop` is `stopAttentive2Loop` (best-effort `stopMove` Transport
call); `animateProxy` is `animateLookAtEntity` (the visual proxy animation);
`startTracking` starts the per-frame synthesizer loop; `stopTracking`
unregisters it; `startIdleLoop` is `startAttentive2Loop` (neutral-pose `goto`
plus `playRecordedMove` Transport calls). -/
inductive ControllerEffect where
  | stopIdleLoop
  | stopTracking
  | animateProxy (visible : Bool)
  | startTracking
  | startIdleLoop
deriving DecidableEq

/-- Source `setState`: returns the new current state and the ordered list of
entry/exit actions performed.  When the requested state equals the current
state the method returns immediately (only a log line is printed). -/
def setState (current newState : RobotState) : RobotState × List ControllerEffect :=
  if current = newState then (current, [])
  else
    match newState with
    | RobotState.LookAtTarget =>
        (newState, [ControllerEffect.stopIdleLoop, ControllerEffect.animateProxy true,
          ControllerEffect.startTracking])
    | RobotState.Idle =>
        (newState, [ControllerEffect.stopTracking, ControllerEffect.animateProxy false,
          ControllerEffect.startIdleLoop])
    | RobotState.Uninitialized => (newState, [])

/-- The look-at tracker bookkeeping of the controller: whether the per-frame
look-at update event is registered, and the tracking state fields. -/
structure LookAtTracker where
  hasLookAtUpdateEvent : Bool
  tracking : TrackingState

/-- Source `startLookAtTracking`: if the update event already exists the
method returns immediately; otherwise it resets the tracking state to zero
(with `trackingStartTime = getTime()`) and registers the update event. -/
def startLookAtTracking (c : LookAtTracker) (now : ℝ) : LookAtTracker :=
  if c.hasLookAtUpdateEvent then c
  else { hasLookAtUpdateEvent := true, tracking := initialTrackingState now }

/-- JSON body of `DaemonInterface.setTarget` (`/api/move/set_target`):
`target_body_yaw` is `none` exactly when the field is absent from the body. -/
structure SetTargetRequestBody where
  target_head_pose : XYZRPYPose
  target_antennas : ℝ × ℝ
  target_body_yaw : Option ℝ

/-- Source `DaemonInterface.setTarget` body construction: `target_antennas`
defaults to `[0, 0]` via `antennas ?? [0, 0]`; `target_body_yaw` is added
only when the `bodyYaw` argument is defined. -/
def setTargetRequestBody (headPose : XYZRPYPose) (bodyYaw : Option ℝ)
    (antennas : Option (ℝ × ℝ)) : SetTargetRequestBody :=
  { target_head_pose := headPose,
    target_antennas := antennas.getD (0, 0),
    target_body_yaw := bodyYaw }

/-- JSON body of `DaemonInterface.goto` (`/api/move/goto`): `body_yaw` is
`none` exactly when the field is absent from the body. -/
structure GotoRequestBody where
  head_pose : XYZRPYPose
  duration : ℝ
  interpolation : String
  antennas : ℝ × ℝ
  body_yaw : Option ℝ

/-- Source `DaemonInterface.goto` body construction: `antennas` is always the
literal `[0, 0]`; `body_yaw` is added only when the argument is defined. -/
def gotoRequestBody (headPose : XYZRPYPose) (bodyYaw : Option ℝ) (duration : ℝ)
    (interpolation : String) : GotoRequestBody :=
  { head_pose := headPose, duration := duration, interpolation := interpolation,
    antennas := (0, 0), body_yaw := bodyYaw }

/-- Concrete tracking state used to refute claim C4: head yaw 40 degrees,
body yaw 0, all other fields zero.  It satisfies every mechanical-limit
invariant of the spec data model. -/
def c4State : TrackingState :=
  { headYaw := 40 * Real.pi / 180, headPitch := 0, headRoll := 0, bodyYaw := 0,
    leftAntenna := 0, rightAntenna := 0, trackingStartTime := 0,
    motionIntensity := 0, lastHeadYaw := 0, lastHeadPitch := 0 }

/-- Concrete tracking state used to refute claim C3: head yaw 36 degrees
(excess 1 degree over `MAX_HEAD_YAW`), body yaw 0, all other fields zero. -/
def c3State : TrackingState :=
  { headYaw := 36 * Real.pi / 180, headPitch := 0, headRoll := 0, bodyYaw := 0,
    leftAntenna := 0, rightAntenna := 0, trackingStartTime := 0,
    motionIntensity := 0, lastHeadYaw := 0, lastHeadPitch := 0 }

/-- Concrete tracking state witnessing the amended claim C3: head yaw 80
degrees (excess 45 degrees, above the monotonicity threshold), body yaw 0. -/
def c3wState : TrackingState :=
  { headYaw := 80 * Real.pi / 180, headPitch := 0, headRoll := 0, bodyYaw := 0,
    leftAntenna := 0, rightAntenna := 0, trackingStartTime := 0,
    motionIntensity := 0, lastHeadYaw := 0, lastHeadPitch := 0 }

/-- Case analysis for `clamp`: the result is either the value itself (when in
range), the lower bound, or the upper bound. -/
lemma clamp_spec (x lo hi : ℝ) (h : lo ≤ hi) :
    (clamp x lo hi = x ∧ lo ≤ x ∧ x ≤ hi) ∨ (clamp x lo hi = lo ∧ x ≤ lo) ∨
      (clamp x lo hi = hi ∧ hi ≤ x) := by
  unfold clamp
  rcases le_total hi x with h1 | h1
  · right; right
    rw [min_eq_left h1, max_eq_right h]
    exact ⟨rfl, h1⟩
  · rcases le_total x lo with h2 | h2
    · right; left
      rw [min_eq_right h1, max_eq_left h2]
      exact ⟨rfl, h2⟩
    · left
      rw [min_eq_right h1, max_eq_right h2]
      exact ⟨rfl, h2, h1⟩

/-- The clamp result always lies between the bounds (for ordered bounds). -/
lemma clamp_mem (x lo hi : ℝ) (h : lo ≤ hi) : lo ≤ clamp x lo hi ∧ clamp x lo hi ≤ hi := by
  rcases clamp_spec x lo hi h with ⟨e, h1, h2⟩ | ⟨e, h1⟩ | ⟨e, h1⟩ <;> rw [e]
  · exact ⟨h1, h2⟩
  · exact ⟨le_refl lo, h⟩
  · exact ⟨h, le_refl hi⟩

/-- Clamping a value already in range is the identity. -/
lemma clamp_eq_of_mem (x lo hi : ℝ) (h1 : lo ≤ x) (h2 : x ≤ hi) : clamp x lo hi = x := by
  unfold clamp
  rw [min_eq_right h2, max_eq_right h1]

/-- Clamping a value at or above the upper bound yields the upper bound. -/
lemma clamp_eq_hi (x lo hi : ℝ) (hlh : lo ≤ hi) (h : hi ≤ x) : clamp x lo hi = hi := by
  unfold clamp
  rw [min_eq_left h, max_eq_right hlh]

/-- A dampened change never exceeds the cap in absolute value. -/
lemma abs_dampenChange_le (d m : ℝ) (hm : 0 ≤ m) : |dampenChange d m| ≤ m := by
  unfold dampenChange
  rw [abs_le]
  exact clamp_mem d (-m) m (by linarith)

/-- Adding a capped delta to an in-range value and re-clamping moves the value
by at most the cap. -/
lemma abs_clamp_add_sub_le (x d lo hi m : ℝ) (hx1 : lo ≤ x) (hx2 : x ≤ hi)
    (hd : |d| ≤ m) : |clamp (x + d) lo hi - x| ≤ m := by
  rw [abs_le] at hd ⊢
  rcases clamp_spec (x + d) lo hi (le_trans hx1 hx2) with ⟨e, h1, h2⟩ | ⟨e, h1⟩ | ⟨e, h1⟩ <;>
    rw [e] <;> constructor <;> linarith

/-- The per-frame yaw cap is nonnegative. -/
lemma MAX_YAW_CHANGE_nonneg : (0 : ℝ) ≤ MAX_YAW_CHANGE_PER_FRAME := by
  show (0 : ℝ) ≤ 3 * Real.pi / 180
  positivity

/-- The per-frame pitch cap is nonnegative. -/
lemma MAX_PITCH_CHANGE_nonneg : (0 : ℝ) ≤ MAX_PITCH_CHANGE_PER_FRAME := by
  show (0 : ℝ) ≤ 1.5 * Real.pi / 180
  positivity

/-- The per-frame antenna cap is nonnegative. -/
lemma MAX_ANTENNA_CHANGE_nonneg : (0 : ℝ) ≤ MAX_ANTENNA_CHANGE_PER_FRAME := by
  show (0 : ℝ) ≤ 2 * Real.pi / 180
  positivity

/-- The pitch limits are ordered. -/
lemma MIN_PITCH_le_MAX_PITCH : MIN_PITCH ≤ MAX_PITCH := by
  show (-30) * Real.pi / 180 ≤ 20 * Real.pi / 180
  have := Real.pi_pos
  linarith

/-- The body yaw band is ordered. -/
lemma neg_MAX_BODY_YAW_le : -MAX_BODY_YAW ≤ MAX_BODY_YAW := by
  show -(160 * Real.pi / 180) ≤ 160 * Real.pi / 180
  have := Real.pi_pos
  linarith

/-- The antenna band is ordered. -/
lemma neg_MAX_ANTENNA_le : -MAX_ANTENNA ≤ MAX_ANTENNA := by
  show -(45 * Real.pi / 180) ≤ 45 * Real.pi / 180
  have := Real.pi_pos
  linarith

/-- The combined yaw band is ordered. -/
lemma neg_maxTotalYaw_le : -(MAX_BODY_YAW + MAX_HEAD_YAW) ≤ MAX_BODY_YAW + MAX_HEAD_YAW := by
  show -(160 * Real.pi / 180 + 35 * Real.pi / 180) ≤ 160 * Real.pi / 180 + 35 * Real.pi / 180
  have := Real.pi_pos
  linarith

/-- Projection of the tick: the next head yaw is the previous head yaw plus
the dampened yaw delta, clamped to the combined yaw band, and the next body
yaw is the body-follow value (`bodyNext`, with the same dampened yaw delta)
clamped to the body band. -/
lemma updateLookAtTarget_yawBody (s : TrackingState) (time : ℝ) (centerPos targetPos : Vec3) :
    (updateLookAtTarget s time centerPos targetPos).1.headYaw =
      clamp
        (s.headYaw +
          dampenChange (((computeDesiredAngles centerPos targetPos s.headYaw).1 - s.headYaw) *
            HEAD_YAW_SMOOTHING) MAX_YAW_CHANGE_PER_FRAME)
        (-(MAX_BODY_YAW + MAX_HEAD_YAW)) (MAX_BODY_YAW + MAX_HEAD_YAW) ∧
    (updateLookAtTarget s time centerPos targetPos).1.bodyYaw =
      clamp
        (bodyNext s.headYaw s.bodyYaw
          (dampenChange (((computeDesiredAngles centerPos targetPos s.headYaw).1 - s.headYaw) *
            HEAD_YAW_SMOOTHING) MAX_YAW_CHANGE_PER_FRAME))
        (-MAX_BODY_YAW) MAX_BODY_YAW :=
  ⟨rfl, rfl⟩

/-- Projection of the tick: the next head pitch has the shape
`clamp (previous + dampened delta) MIN_PITCH MAX_PITCH`. -/
lemma updateLookAtTarget_headPitch (s : TrackingState) (time : ℝ) (centerPos targetPos : Vec3) :
    ∃ d, (updateLookAtTarget s time centerPos targetPos).1.headPitch =
      clamp (s.headPitch + dampenChange d MAX_PITCH_CHANGE_PER_FRAME) MIN_PITCH MAX_PITCH :=
  ⟨_, rfl⟩

/-- Projection of the tick: both antenna updates have the shape
`clamp (previous + dampened delta) (-MAX_ANTENNA) MAX_ANTENNA`. -/
lemma updateLookAtTarget_antennas (s : TrackingState) (time : ℝ) (centerPos targetPos : Vec3) :
    ∃ dl dr,
      (updateLookAtTarget s time centerPos targetPos).1.leftAntenna =
        clamp (s.leftAntenna + dampenChange dl MAX_ANTENNA_CHANGE_PER_FRAME)
          (-MAX_ANTENNA) MAX_ANTENNA ∧
      (updateLookAtTarget s time centerPos targetPos).1.rightAntenna =
        clamp (s.rightAntenna + dampenChange dr MAX_ANTENNA_CHANGE_PER_FRAME)
          (-MAX_ANTENNA) MAX_ANTENNA :=
  ⟨_, _, rfl, rfl⟩

/-- Projection of the tick: the transmitted pitch has the shape
`clamp (next headPitch + wobble) MIN_PITCH MAX_PITCH`. -/
lemma updateLookAtTarget_sentPitch (s : TrackingState) (time : ℝ) (centerPos targetPos : Vec3) :
    ∃ w, (updateLookAtTarget s time centerPos targetPos).2.headPose.pitch =
      clamp ((updateLookAtTarget s time centerPos targetPos).1.headPitch + w)
        MIN_PITCH MAX_PITCH :=
  ⟨_, rfl⟩

/-- One tick always re-establishes every mechanical-limit invariant,
whatever the previous state and the target. -/
lemma stateInvariant_update (s : TrackingState) (time : ℝ) (centerPos targetPos : Vec3) :
    StateInvariant (updateLookAtTarget s time centerPos targetPos).1 := by
  obtain ⟨dp, hp⟩ := updateLookAtTarget_headPitch s time centerPos targetPos
  obtain ⟨dl, dr, hl, hr⟩ := updateLookAtTarget_antennas s time centerPos targetPos
  obtain ⟨hy, hb⟩ := updateLookAtTarget_yawBody s time centerPos targetPos
  refine ⟨?_, ?_, ?_, ?_, ?_, ?_⟩
  · rw [hp]; exact (clamp_mem _ _ _ MIN_PITCH_le_MAX_PITCH).1
  · rw [hp]; exact (clamp_mem _ _ _ MIN_PITCH_le_MAX_PITCH).2
  · rw [hb, abs_le]
    exact clamp_mem _ _ _ neg_MAX_BODY_YAW_le
  · rw [hl, abs_le]
    exact clamp_mem _ _ _ neg_MAX_ANTENNA_le
  · rw [hr, abs_le]
    exact clamp_mem _ _ _ neg_MAX_ANTENNA_le
  · rw [hy, abs_le]
    exact clamp_mem _ _ _ neg_maxTotalYaw_le

/-- The freshly reset tracking state satisfies the invariants. -/
lemma stateInvariant_initial (t0 : ℝ) : StateInvariant (initialTrackingState t0) := by
  have hpi := Real.pi_pos
  refine ⟨?_, ?_, ?_, ?_, ?_, ?_⟩ <;>
    simp only [initialTrackingState, abs_zero] <;>
    [skip; skip; skip; skip; skip; skip] <;>
    first
      | (show (-30) * Real.pi / 180 ≤ (0:ℝ); linarith)
      | (show (0:ℝ) ≤ 20 * Real.pi / 180; positivity)
      | (show (0:ℝ) ≤ 160 * Real.pi / 180; positivity)
      | (show (0:ℝ) ≤ 45 * Real.pi / 180; positivity)
      | (show (0:ℝ) ≤ 160 * Real.pi / 180 + 35 * Real.pi / 180; positivity)

/-- Every reachable tracking state satisfies the mechanical-limit invariants. -/
lemma reachable_stateInvariant (t0 : ℝ) (s : TrackingState) (h : ReachableTracking t0 s) :
    StateInvariant s := by
  induction h with
  | init => exact stateInvariant_initial t0
  | step s time centerPos targetPos _ _ => exact stateInvariant_update s time centerPos targetPos

/-- Case analysis for `dampenChange` via `clamp_spec`. -/
lemma dampen_spec (d m : ℝ) (hm : 0 ≤ m) :
    (dampenChange d m = d ∧ -m ≤ d ∧ d ≤ m) ∨ (dampenChange d m = -m ∧ d ≤ -m) ∨
      (dampenChange d m = m ∧ m ≤ d) := by
  unfold dampenChange
  exact clamp_spec d (-m) m (by linarith)

/-- A dampened change never exceeds the raw delta (when the delta is above
the lower cap). -/
lemma dampenChange_le_self (d m : ℝ) (h : -m ≤ d) : dampenChange d m ≤ d := by
  unfold dampenChange clamp
  exact max_le h (min_le_right m d)

/-- The body-follow update moves the body yaw by at most the per-frame yaw
cap, in every branch. -/
lemma bodyNext_close (h b D : ℝ) : |bodyNext h b D - b| ≤ MAX_YAW_CHANGE_PER_FRAME := by
  have hMH : MAX_HEAD_YAW = 35 * Real.pi / 180 := rfl
  have hMY : MAX_YAW_CHANGE_PER_FRAME = 3 * Real.pi / 180 := rfl
  have hpi := Real.pi_pos
  unfold bodyNext
  split_ifs with hbig hhalf
  · simp only [add_sub_cancel_left]
    exact abs_dampenChange_le _ _ MAX_YAW_CHANGE_nonneg
  · rw [not_lt] at hbig
    simp only [add_sub_cancel_left]
    rw [abs_mul]
    have h2 : |BODY_SMOOTHING * 2| = 0.08 := by
      show |(0.04 : ℝ) * 2| = 0.08
      norm_num
    rw [h2, hMY]
    rw [hMH] at hbig
    linarith
  · rw [not_lt] at hbig
    simp only [add_sub_cancel_left]
    rw [abs_mul]
    have h2 : |BODY_SMOOTHING| = 0.04 := by
      show |(0.04 : ℝ)| = 0.04
      norm_num
    rw [h2, hMY]
    rw [hMH] at hbig
    linarith

set_option maxHeartbeats 3000000 in
/-- Core preservation lemma for the amended claim C4: if the previous body yaw
is within its mechanical band and the previous head-relative yaw is within
`MAX_HEAD_YAW + (17/8) * MAX_YAW_CHANGE_PER_FRAME`, then after one head step
of at most `MAX_YAW_CHANGE_PER_FRAME`, the body follow, and the two final
clamps, the head-relative yaw is again within that bound. -/
lemma relYaw_step_core (h b D : ℝ)
    (hD : |D| ≤ MAX_YAW_CHANGE_PER_FRAME)
    (hb : |b| ≤ MAX_BODY_YAW)
    (hr : |h - b| ≤ MAX_HEAD_YAW + 17 / 8 * MAX_YAW_CHANGE_PER_FRAME) :
    |clamp (h + D) (-(MAX_BODY_YAW + MAX_HEAD_YAW)) (MAX_BODY_YAW + MAX_HEAD_YAW) -
        clamp (bodyNext h b D) (-MAX_BODY_YAW) MAX_BODY_YAW| ≤
      MAX_HEAD_YAW + 17 / 8 * MAX_YAW_CHANGE_PER_FRAME := by
  have hMH : MAX_HEAD_YAW = 35 * Real.pi / 180 := rfl
  have hMB : MAX_BODY_YAW = 160 * Real.pi / 180 := rfl
  have hMY : MAX_YAW_CHANGE_PER_FRAME = 3 * Real.pi / 180 := rfl
  have hBS : BODY_SMOOTHING = 0.04 := rfl
  have hpi := Real.pi_pos
  have hlh1 : -(MAX_BODY_YAW + MAX_HEAD_YAW) ≤ MAX_BODY_YAW + MAX_HEAD_YAW := neg_maxTotalYaw_le
  have hlh2 : -MAX_BODY_YAW ≤ MAX_BODY_YAW := neg_MAX_BODY_YAW_le
  rw [abs_le] at hD hb hr
  unfold bodyNext
  rw [hBS]
  split_ifs with hbig hhalf
  · -- urgent catch-up branch
    have hne : h + D - b ≠ 0 := by
      intro h0
      rw [h0, abs_zero, hMH] at hbig
      linarith
    rcases hne.lt_or_lt with hneg | hpos
    · rw [abs_of_neg hneg] at hbig ⊢
      rw [Real.sign_of_neg hneg]
      rcases dampen_spec (-1 * (-(h + D - b) - MAX_HEAD_YAW) * 0.04 * 8)
          MAX_YAW_CHANGE_PER_FRAME MAX_YAW_CHANGE_nonneg with
        ⟨e2, l2, u2⟩ | ⟨e2, u2⟩ | ⟨e2, l2⟩ <;>
      rcases clamp_spec (h + D) (-(MAX_BODY_YAW + MAX_HEAD_YAW)) (MAX_BODY_YAW + MAX_HEAD_YAW)
          hlh1 with ⟨e1, l1, u1⟩ | ⟨e1, u1⟩ | ⟨e1, l1⟩ <;>
      rcases clamp_spec
          (b + dampenChange (-1 * (-(h + D - b) - MAX_HEAD_YAW) * 0.04 * 8)
            MAX_YAW_CHANGE_PER_FRAME) (-MAX_BODY_YAW) MAX_BODY_YAW hlh2 with
        ⟨e3, l3, u3⟩ | ⟨e3, u3⟩ | ⟨e3, l3⟩ <;>
      (rw [abs_le]; exact ⟨by linarith, by linarith⟩)
    · rw [abs_of_pos hpos] at hbig ⊢
      rw [Real.sign_of_pos hpos]
      rcases dampen_spec (1 * (h + D - b - MAX_HEAD_YAW) * 0.04 * 8)
          MAX_YAW_CHANGE_PER_FRAME MAX_YAW_CHANGE_nonneg with
        ⟨e2, l2, u2⟩ | ⟨e2, u2⟩ | ⟨e2, l2⟩ <;>
      rcases clamp_spec (h + D) (-(MAX_BODY_YAW + MAX_HEAD_YAW)) (MAX_BODY_YAW + MAX_HEAD_YAW)
          hlh1 with ⟨e1, l1, u1⟩ | ⟨e1, u1⟩ | ⟨e1, l1⟩ <;>
      rcases clamp_spec
          (b + dampenChange (1 * (h + D - b - MAX_HEAD_YAW) * 0.04 * 8)
            MAX_YAW_CHANGE_PER_FRAME) (-MAX_BODY_YAW) MAX_BODY_YAW hlh2 with
        ⟨e3, l3, u3⟩ | ⟨e3, u3⟩ | ⟨e3, l3⟩ <;>
      (rw [abs_le]; exact ⟨by linarith, by linarith⟩)
  · -- fast-follow branch
    rw [not_lt, abs_le] at hbig
    rcases clamp_spec (h + D) (-(MAX_BODY_YAW + MAX_HEAD_YAW)) (MAX_BODY_YAW + MAX_HEAD_YAW)
        hlh1 with ⟨e1, l1, u1⟩ | ⟨e1, u1⟩ | ⟨e1, l1⟩ <;>
    rcases clamp_spec (b + (h + D - b) * (0.04 * 2)) (-MAX_BODY_YAW) MAX_BODY_YAW hlh2 with
      ⟨e3, l3, u3⟩ | ⟨e3, u3⟩ | ⟨e3, l3⟩ <;>
    (rw [abs_le]; exact ⟨by linarith, by linarith⟩)
  · -- base-follow branch
    rw [not_lt, abs_le] at hbig
    rcases clamp_spec (h + D) (-(MAX_BODY_YAW + MAX_HEAD_YAW)) (MAX_BODY_YAW + MAX_HEAD_YAW)
        hlh1 with ⟨e1, l1, u1⟩ | ⟨e1, u1⟩ | ⟨e1, l1⟩ <;>
    rcases clamp_spec (b + (h + D - b) * 0.04) (-MAX_BODY_YAW) MAX_BODY_YAW hlh2 with
      ⟨e3, l3, u3⟩ | ⟨e3, u3⟩ | ⟨e3, l3⟩ <;>
    (rw [abs_le]; exact ⟨by linarith, by linarith⟩)

/-- Desired yaw for a target one meter straight behind the origin is `π`. -/
lemma desired_yaw_back (hy : ℝ) :
    (computeDesiredAngles ⟨0, 0, 0⟩ ⟨0, 0, -1⟩ hy).1 = Real.pi := by
  simp only [computeDesiredAngles, atan2]
  norm_num [Real.sqrt_one, Real.arctan_zero]

/-- The tracking states used in the counterexamples (head yaw `a ≥ 0`, every
other field zero) satisfy the mechanical-limit invariants whenever
`a ≤ MAX_BODY_YAW + MAX_HEAD_YAW`. -/
lemma stateInvariant_cex (a : ℝ) (h1 : 0 ≤ a) (h2 : a ≤ MAX_BODY_YAW + MAX_HEAD_YAW) :
    StateInvariant
      { headYaw := a, headPitch := 0, headRoll := 0, bodyYaw := 0, leftAntenna := 0,
        rightAntenna := 0, trackingStartTime := 0, motionIntensity := 0, lastHeadYaw := 0,
        lastHeadPitch := 0 } := by
  have hpi := Real.pi_pos
  refine ⟨?_, ?_, ?_, ?_, ?_, ?_⟩
  · show (-30) * Real.pi / 180 ≤ (0 : ℝ)
    linarith
  · show (0 : ℝ) ≤ 20 * Real.pi / 180
    positivity
  · show |(0 : ℝ)| ≤ 160 * Real.pi / 180
    rw [abs_zero]
    positivity
  · show |(0 : ℝ)| ≤ 45 * Real.pi / 180
    rw [abs_zero]
    positivity
  · show |(0 : ℝ)| ≤ 45 * Real.pi / 180
    rw [abs_zero]
    positivity
  · show |a| ≤ MAX_BODY_YAW + MAX_HEAD_YAW
    rw [abs_of_nonneg h1]
    exact h2

set_option maxHeartbeats 3000000 in
/-- Core monotonicity lemma for the amended claim C3: when the head-relative
yaw excess is at least `(17/8) * MAX_YAW_CHANGE_PER_FRAME`, one tick of the
head step, body follow and final clamps does not increase the excess. -/
lemma relExcess_step_core (h b D : ℝ)
    (hD : |D| ≤ MAX_YAW_CHANGE_PER_FRAME)
    (hb : |b| ≤ MAX_BODY_YAW)
    (he : MAX_HEAD_YAW + 17 / 8 * MAX_YAW_CHANGE_PER_FRAME ≤ |h - b|) :
    |clamp (h + D) (-(MAX_BODY_YAW + MAX_HEAD_YAW)) (MAX_BODY_YAW + MAX_HEAD_YAW) -
        clamp (bodyNext h b D) (-MAX_BODY_YAW) MAX_BODY_YAW| - MAX_HEAD_YAW ≤
      |h - b| - MAX_HEAD_YAW := by
  have hMH : MAX_HEAD_YAW = 35 * Real.pi / 180 := rfl
  have hMB : MAX_BODY_YAW = 160 * Real.pi / 180 := rfl
  have hMY : MAX_YAW_CHANGE_PER_FRAME = 3 * Real.pi / 180 := rfl
  have hBS : BODY_SMOOTHING = 0.04 := rfl
  have hpi := Real.pi_pos
  rw [sub_le_sub_iff_right]
  unfold bodyNext
  simp only [hMH, hMB, hMY, hBS] at hD hb he ⊢
  rw [abs_le] at hD hb
  rcases abs_cases (h - b) with ⟨hab, hab0⟩ | ⟨hab, hab0⟩
  · rw [hab] at he ⊢
    have hpos : 0 < h + D - b := by linarith
    rw [abs_of_pos hpos, Real.sign_of_pos hpos]
    rw [if_pos (show h + D - b > 35 * Real.pi / 180 by linarith)]
    rcases dampen_spec (1 * (h + D - b - 35 * Real.pi / 180) * 0.04 * 8) (3 * Real.pi / 180)
        (by positivity) with ⟨e2, l2, u2⟩ | ⟨e2, u2⟩ | ⟨e2, l2⟩ <;>
    rcases clamp_spec (h + D) (-(160 * Real.pi / 180 + 35 * Real.pi / 180))
        (160 * Real.pi / 180 + 35 * Real.pi / 180) (by linarith) with
      ⟨e1, l1, u1⟩ | ⟨e1, u1⟩ | ⟨e1, l1⟩ <;>
    rcases clamp_spec
        (b + dampenChange (1 * (h + D - b - 35 * Real.pi / 180) * 0.04 * 8) (3 * Real.pi / 180))
        (-(160 * Real.pi / 180)) (160 * Real.pi / 180) (by linarith) with
      ⟨e3, l3, u3⟩ | ⟨e3, u3⟩ | ⟨e3, l3⟩ <;>
    (rw [abs_le]; exact ⟨by linarith, by linarith⟩)
  · rw [hab] at he ⊢
    have hneg : h + D - b < 0 := by linarith
    rw [abs_of_neg hneg, Real.sign_of_neg hneg]
    rw [if_pos (show -(h + D - b) > 35 * Real.pi / 180 by linarith)]
    rcases dampen_spec (-1 * (-(h + D - b) - 35 * Real.pi / 180) * 0.04 * 8) (3 * Real.pi / 180)
        (by positivity) with ⟨e2, l2, u2⟩ | ⟨e2, u2⟩ | ⟨e2, l2⟩ <;>
    rcases clamp_spec (h + D) (-(160 * Real.pi / 180 + 35 * Real.pi / 180))
        (160 * Real.pi / 180 + 35 * Real.pi / 180) (by linarith) with
      ⟨e1, l1, u1⟩ | ⟨e1, u1⟩ | ⟨e1, l1⟩ <;>
    rcases clamp_spec
        (b + dampenChange (-1 * (-(h + D - b) - 35 * Real.pi / 180) * 0.04 * 8)
          (3 * Real.pi / 180))
        (-(160 * Real.pi / 180)) (160 * Real.pi / 180) (by linarith) with
      ⟨e3, l3, u3⟩ | ⟨e3, u3⟩ | ⟨e3, l3⟩ <;>
    (rw [abs_le]; exact ⟨by linarith, by linarith⟩)

/-- Claim C1: on every tick of the look-at update, whatever the (arbitrarily
distant) target, the per-tick change of the smoothed head yaw, head pitch and
each antenna angle is bounded by the corresponding configured per-frame cap. -/
theorem rate_limiting_per_tick (t0 : ℝ) (s : TrackingState) (hs : ReachableTracking t0 s)
    (time : ℝ) (centerPos targetPos : Vec3) :
    |(updateLookAtTarget s time centerPos targetPos).1.headYaw - s.headYaw| ≤
        MAX_YAW_CHANGE_PER_FRAME ∧
    |(updateLookAtTarget s time centerPos targetPos).1.headPitch - s.headPitch| ≤
        MAX_PITCH_CHANGE_PER_FRAME ∧
    |(updateLookAtTarget s time centerPos targetPos).1.leftAntenna - s.leftAntenna| ≤
        MAX_ANTENNA_CHANGE_PER_FRAME ∧
    |(updateLookAtTarget s time centerPos targetPos).1.rightAntenna - s.rightAntenna| ≤
        MAX_ANTENNA_CHANGE_PER_FRAME := by
  obtain ⟨hp1, hp2, _, hla, hra, hhy⟩ := reachable_stateInvariant t0 s hs
  obtain ⟨dp, hp⟩ := updateLookAtTarget_headPitch s time centerPos targetPos
  obtain ⟨dl, dr, hl, hr⟩ := updateLookAtTarget_antennas s time centerPos targetPos
  obtain ⟨hy, _⟩ := updateLookAtTarget_yawBody s time centerPos targetPos
  rw [abs_le] at hla hra hhy
  refine ⟨?_, ?_, ?_, ?_⟩
  · rw [hy]
    exact abs_clamp_add_sub_le _ _ _ _ _ hhy.1 hhy.2
      (abs_dampenChange_le _ _ MAX_YAW_CHANGE_nonneg)
  · rw [hp]
    exact abs_clamp_add_sub_le _ _ _ _ _ hp1 hp2
      (abs_dampenChange_le _ _ MAX_PITCH_CHANGE_nonneg)
  · rw [hl]
    exact abs_clamp_add_sub_le _ _ _ _ _ hla.1 hla.2
      (abs_dampenChange_le _ _ MAX_ANTENNA_CHANGE_nonneg)
  · rw [hr]
    exact abs_clamp_add_sub_le _ _ _ _ _ hra.1 hra.2
      (abs_dampenChange_le _ _ MAX_ANTENNA_CHANGE_nonneg)

/-- Witness for C1: the rate limits hold on a concrete tick from the freshly
reset tracking state. -/
theorem rate_limiting_per_tick_witness :
    ReachableTracking 0 (initialTrackingState 0) ∧
    (|(updateLookAtTarget (initialTrackingState 0) 1 ⟨0, 0, 0⟩ ⟨0, 0, 5⟩).1.headYaw -
          (initialTrackingState 0).headYaw| ≤ MAX_YAW_CHANGE_PER_FRAME ∧
      |(updateLookAtTarget (initialTrackingState 0) 1 ⟨0, 0, 0⟩ ⟨0, 0, 5⟩).1.headPitch -
          (initialTrackingState 0).headPitch| ≤ MAX_PITCH_CHANGE_PER_FRAME ∧
      |(updateLookAtTarget (initialTrackingState 0) 1 ⟨0, 0, 0⟩ ⟨0, 0, 5⟩).1.leftAntenna -
          (initialTrackingState 0).leftAntenna| ≤ MAX_ANTENNA_CHANGE_PER_FRAME ∧
      |(updateLookAtTarget (initialTrackingState 0) 1 ⟨0, 0, 0⟩ ⟨0, 0, 5⟩).1.rightAntenna -
          (initialTrackingState 0).rightAntenna| ≤ MAX_ANTENNA_CHANGE_PER_FRAME) :=
  ⟨ReachableTracking.init,
    rate_limiting_per_tick 0 (initialTrackingState 0) ReachableTracking.init 1 ⟨0, 0, 0⟩ ⟨0, 0, 5⟩⟩

/-- Claim C2: after every tick, whatever the previous state and the target,
the next state satisfies the mechanical-limit invariants (pitch within
`[MIN_PITCH, MAX_PITCH]`, body yaw within `±MAX_BODY_YAW`, antennas within
`±MAX_ANTENNA`, head yaw within `±(MAX_BODY_YAW + MAX_HEAD_YAW)`), and the
transmitted wobble-added pitch also lies in `[MIN_PITCH, MAX_PITCH]`. -/
theorem mechanical_clamping_invariant (s : TrackingState) (time : ℝ) (centerPos targetPos : Vec3) :
    StateInvariant (updateLookAtTarget s time centerPos targetPos).1 ∧
    MIN_PITCH ≤ (updateLookAtTarget s time centerPos targetPos).2.headPose.pitch ∧
    (updateLookAtTarget s time centerPos targetPos).2.headPose.pitch ≤ MAX_PITCH := by
  obtain ⟨w, hw⟩ := updateLookAtTarget_sentPitch s time centerPos targetPos
  refine ⟨stateInvariant_update s time centerPos targetPos, ?_, ?_⟩
  · rw [hw]; exact (clamp_mem _ _ _ MIN_PITCH_le_MAX_PITCH).1
  · rw [hw]; exact (clamp_mem _ _ _ MIN_PITCH_le_MAX_PITCH).2

/-- Claim C5 (failing evaluation): starting from a fresh idle loop whose only
launch attempt failed (so the move uuid is still unset), the completion
checker is a no-op for every later time, every running-moves query outcome
and every relaunch outcome: the looping flag stays set but playback is never
relaunched, not even after the 5-second fallback window. -/
theorem idle_loop_no_relaunch_after_failed_start (t now : ℝ)
    (runningQuery : Option (Except Unit (List String))) (playResult : Except Unit String) :
    (playAttentive2Loop idleStartState t (Except.error ())).isAttentive2Looping = true ∧
    (playAttentive2Loop idleStartState t (Except.error ())).attentive2MoveUuid = none ∧
    checkMoveCompletion (playAttentive2Loop idleStartState t (Except.error ())) now
        runningQuery playResult =
      playAttentive2Loop idleStartState t (Except.error ()) := by
  refine ⟨rfl, rfl, ?_⟩
  simp [checkMoveCompletion, playAttentive2Loop, idleStartState]

/-- Claim C6: whenever the horizontal distance from the (offset) origin to the
target is below `0.001`, `computeDesiredAngles` keeps the previous head yaw
and snaps the pitch to `MAX_PITCH` for a positive vertical delta and to
`MIN_PITCH` otherwise. -/
theorem singularity_handling (centerPos targetPos : Vec3) (hy : ℝ)
    (h : Real.sqrt ((targetPos.x - centerPos.x) * (targetPos.x - centerPos.x) +
        (targetPos.z - centerPos.z) * (targetPos.z - centerPos.z)) < 0.001) :
    computeDesiredAngles centerPos targetPos hy =
      (hy, if targetPos.y - centerPos.y > 0 then MAX_PITCH else MIN_PITCH) := by
  simp only [computeDesiredAngles]
  rw [if_pos h]

/-- Witness for C6: a target coinciding with the origin takes the singular
branch and yields the previous yaw with `MIN_PITCH`. -/
theorem singularity_handling_witness :
    Real.sqrt (((0 : ℝ) - 0) * ((0 : ℝ) - 0) + ((0 : ℝ) - 0) * ((0 : ℝ) - 0)) < 0.001 ∧
    computeDesiredAngles ⟨0, 0, 0⟩ ⟨0, 0, 0⟩ 1 = (1, MIN_PITCH) := by
  have h : Real.sqrt (((0 : ℝ) - 0) * ((0 : ℝ) - 0) + ((0 : ℝ) - 0) * ((0 : ℝ) - 0)) < 0.001 := by
    norm_num [Real.sqrt_zero]
  refine ⟨h, ?_⟩
  have h2 := singularity_handling ⟨0, 0, 0⟩ ⟨0, 0, 0⟩ 1 h
  rw [h2]
  norm_num

/-- Claim C7: requesting the current state is a no-op: the state is unchanged
and no entry/exit action (no proxy animation, no idle-loop or tracking
start/stop, hence no Transport call) is performed. -/
theorem setState_idempotent (s : RobotState) : setState s s = (s, []) := by
  simp [setState]

/-- Claim C8: every tick's `setTarget` transmission carries a pose whose
position components are exactly zero, the current (post-tick) body yaw, and
the antenna pair in the order `[rightAntenna, leftAntenna]`. -/
theorem set_target_pose_zero_position (s : TrackingState) (time : ℝ)
    (centerPos targetPos : Vec3) :
    (updateLookAtTarget s time centerPos targetPos).2.headPose.x = 0 ∧
    (updateLookAtTarget s time centerPos targetPos).2.headPose.y = 0 ∧
    (updateLookAtTarget s time centerPos targetPos).2.headPose.z = 0 ∧
    (updateLookAtTarget s time centerPos targetPos).2.bodyYaw =
      (updateLookAtTarget s time centerPos targetPos).1.bodyYaw ∧
    (updateLookAtTarget s time centerPos targetPos).2.antennas =
      ((updateLookAtTarget s time centerPos targetPos).1.rightAntenna,
        (updateLookAtTarget s time centerPos targetPos).1.leftAntenna) :=
  ⟨rfl, rfl, rfl, rfl, rfl⟩

/-- Claim C9: a `setTarget` call with the antennas argument omitted sends
`target_antennas = [0, 0]`; with `bodyYaw` omitted the body carries no
`target_body_yaw` field; and every `goto` body carries `antennas = [0, 0]`. -/
theorem request_body_defaults (hp : XYZRPYPose) (oby : Option ℝ) (d : ℝ) (interp : String)
    (ant : Option (ℝ × ℝ)) :
    (setTargetRequestBody hp oby none).target_antennas = (0, 0) ∧
    (setTargetRequestBody hp none ant).target_body_yaw = none ∧
    (gotoRequestBody hp oby d interp).antennas = (0, 0) :=
  ⟨rfl, rfl, rfl⟩

/-- Claim C10: `startLookAtTracking` returns immediately (all tracking fields
unchanged) when the look-at update event is already registered, and resets
the tracking state only when no event exists. -/
theorem startLookAtTracking_guard (c : LookAtTracker) (now : ℝ) :
    (c.hasLookAtUpdateEvent = true → startLookAtTracking c now = c) ∧
    (c.hasLookAtUpdateEvent = false →
      startLookAtTracking c now =
        { hasLookAtUpdateEvent := true, tracking := initialTrackingState now }) := by
  constructor
  · intro h
    simp [startLookAtTracking, h]
  · intro h
    simp [startLookAtTracking, h]

/-- Witness for C10: concrete trackers with and without a registered event. -/
theorem startLookAtTracking_guard_witness :
    startLookAtTracking ⟨true, initialTrackingState 5⟩ 9 = ⟨true, initialTrackingState 5⟩ ∧
    startLookAtTracking ⟨false, initialTrackingState 5⟩ 9 = ⟨true, initialTrackingState 9⟩ :=
  ⟨(startLookAtTracking_guard ⟨true, initialTrackingState 5⟩ 9).1 rfl,
    (startLookAtTracking_guard ⟨false, initialTrackingState 5⟩ 9).2 rfl⟩

/-- Counterexample to claim C4 as stated: from a state satisfying all the
spec data-model invariants (head yaw 40 degrees, body yaw 0) with the target
one meter straight behind the origin, one tick leaves
`|headYaw - bodyYaw| > MAX_HEAD_YAW` (the head advances 3 degrees to 43
degrees while the body catches up by at most 3 degrees, in fact 2.56
degrees). -/
theorem relative_yaw_bound_violated :
    StateInvariant c4State ∧
    ¬ (|(updateLookAtTarget c4State 0 ⟨0, 0, 0⟩ ⟨0, 0, -1⟩).1.headYaw -
          (updateLookAtTarget c4State 0 ⟨0, 0, 0⟩ ⟨0, 0, -1⟩).1.bodyYaw| ≤ MAX_HEAD_YAW) := by
  have hpi := Real.pi_pos
  have hMYe : MAX_YAW_CHANGE_PER_FRAME = 3 * Real.pi / 180 := rfl
  have hMBe : MAX_BODY_YAW = 160 * Real.pi / 180 := rfl
  have hMHe : MAX_HEAD_YAW = 35 * Real.pi / 180 := rfl
  constructor
  · exact stateInvariant_cex (40 * Real.pi / 180) (by positivity)
      (by rw [hMBe, hMHe]; linarith)
  · obtain ⟨hy, hby⟩ := updateLookAtTarget_yawBody c4State 0 ⟨0, 0, 0⟩ ⟨0, 0, -1⟩
    have hch : c4State.headYaw = 40 * Real.pi / 180 := rfl
    have hcb : c4State.bodyYaw = 0 := rfl
    have hdes : (computeDesiredAngles ⟨0, 0, 0⟩ ⟨0, 0, -1⟩ c4State.headYaw).1 = Real.pi :=
      desired_yaw_back _
    have hD : dampenChange
        (((computeDesiredAngles ⟨0, 0, 0⟩ ⟨0, 0, -1⟩ c4State.headYaw).1 - c4State.headYaw) *
          HEAD_YAW_SMOOTHING) MAX_YAW_CHANGE_PER_FRAME = 3 * Real.pi / 180 := by
      rw [hdes, hch]
      show dampenChange ((Real.pi - 40 * Real.pi / 180) * 0.06) (3 * Real.pi / 180) =
        3 * Real.pi / 180
      unfold dampenChange
      apply clamp_eq_hi
      · linarith
      · linarith
    rw [hD, hch] at hy hby
    rw [hcb] at hby
    have hH : (updateLookAtTarget c4State 0 ⟨0, 0, 0⟩ ⟨0, 0, -1⟩).1.headYaw =
        40 * Real.pi / 180 + 3 * Real.pi / 180 := by
      rw [hy]
      apply clamp_eq_of_mem
      · show -(160 * Real.pi / 180 + 35 * Real.pi / 180) ≤
          40 * Real.pi / 180 + 3 * Real.pi / 180
        linarith
      · show 40 * Real.pi / 180 + 3 * Real.pi / 180 ≤
          160 * Real.pi / 180 + 35 * Real.pi / 180
        linarith
    have hclose := bodyNext_close (40 * Real.pi / 180) 0 (3 * Real.pi / 180)
    rw [sub_zero, hMYe, abs_le] at hclose
    have hB : (updateLookAtTarget c4State 0 ⟨0, 0, 0⟩ ⟨0, 0, -1⟩).1.bodyYaw =
        bodyNext (40 * Real.pi / 180) 0 (3 * Real.pi / 180) := by
      rw [hby]
      apply clamp_eq_of_mem
      · linarith [hclose.1, hclose.2, hMBe]
      · linarith [hclose.1, hclose.2, hMBe]
    rw [not_le, hH, hB]
    rw [abs_of_pos (show (0 : ℝ) < 40 * Real.pi / 180 + 3 * Real.pi / 180 -
        bodyNext (40 * Real.pi / 180) 0 (3 * Real.pi / 180) by linarith [hclose.2])]
    rw [hMHe]
    linarith [hclose.2]

/-- Amended claim C4: along every run of the look-at loop (from the reset
state, for every sequence of times and targets), after every tick the
head-relative yaw satisfies
`|headYaw - bodyYaw| ≤ MAX_HEAD_YAW + (17/8) * MAX_YAW_CHANGE_PER_FRAME`
(about 41.4 degrees); the stricter bound `MAX_HEAD_YAW` alone can be exceeded
transiently. -/
theorem relative_yaw_bounded_reachable (t0 : ℝ) (s : TrackingState)
    (hs : ReachableTracking t0 s) :
    |s.headYaw - s.bodyYaw| ≤ MAX_HEAD_YAW + 17 / 8 * MAX_YAW_CHANGE_PER_FRAME := by
  induction hs with
  | init =>
      have h1 := MAX_YAW_CHANGE_nonneg
      have h2 : (0 : ℝ) ≤ MAX_HEAD_YAW := by
        show (0 : ℝ) ≤ 35 * Real.pi / 180
        positivity
      simp only [initialTrackingState, sub_zero, abs_zero]
      linarith
  | step s time centerPos targetPos hsr ih =>
      obtain ⟨_, _, hbI, _, _, _⟩ := reachable_stateInvariant t0 s hsr
      obtain ⟨hy, hby⟩ := updateLookAtTarget_yawBody s time centerPos targetPos
      rw [hy, hby]
      exact relYaw_step_core s.headYaw s.bodyYaw _
        (abs_dampenChange_le _ _ MAX_YAW_CHANGE_nonneg) hbI ih

/-- Witness for the amended C4 at the reset state. -/
theorem relative_yaw_bounded_reachable_witness :
    ReachableTracking 0 (initialTrackingState 0) ∧
    |(initialTrackingState 0).headYaw - (initialTrackingState 0).bodyYaw| ≤
      MAX_HEAD_YAW + 17 / 8 * MAX_YAW_CHANGE_PER_FRAME :=
  ⟨ReachableTracking.init, relative_yaw_bounded_reachable 0 _ ReachableTracking.init⟩

/-- Counterexample to claim C3 as stated: at a state with excess 1 degree
(head yaw 36 degrees, body yaw 0) and the target held one meter straight
behind the origin, the next tick increases the excess (the head advances 3
degrees while the body catches up only 1.28 degrees, so the excess grows from
1 degree to 2.72 degrees). -/
theorem relative_yaw_excess_can_increase :
    StateInvariant c3State ∧
    MAX_HEAD_YAW < |c3State.headYaw - c3State.bodyYaw| ∧
    relExcess c3State < relExcess (updateLookAtTarget c3State 0 ⟨0, 0, 0⟩ ⟨0, 0, -1⟩).1 := by
  have hpi := Real.pi_pos
  have hMYe : MAX_YAW_CHANGE_PER_FRAME = 3 * Real.pi / 180 := rfl
  have hMBe : MAX_BODY_YAW = 160 * Real.pi / 180 := rfl
  have hMHe : MAX_HEAD_YAW = 35 * Real.pi / 180 := rfl
  have hch : c3State.headYaw = 36 * Real.pi / 180 := rfl
  have hcb : c3State.bodyYaw = 0 := rfl
  refine ⟨?_, ?_, ?_⟩
  · exact stateInvariant_cex (36 * Real.pi / 180) (by positivity)
      (by rw [hMBe, hMHe]; linarith)
  · rw [hch, hcb, sub_zero, abs_of_pos (by positivity : (0 : ℝ) < 36 * Real.pi / 180), hMHe]
    linarith
  · obtain ⟨hy, hby⟩ := updateLookAtTarget_yawBody c3State 0 ⟨0, 0, 0⟩ ⟨0, 0, -1⟩
    have hdes : (computeDesiredAngles ⟨0, 0, 0⟩ ⟨0, 0, -1⟩ c3State.headYaw).1 = Real.pi :=
      desired_yaw_back _
    have hD : dampenChange
        (((computeDesiredAngles ⟨0, 0, 0⟩ ⟨0, 0, -1⟩ c3State.headYaw).1 - c3State.headYaw) *
          HEAD_YAW_SMOOTHING) MAX_YAW_CHANGE_PER_FRAME = 3 * Real.pi / 180 := by
      rw [hdes, hch]
      show dampenChange ((Real.pi - 36 * Real.pi / 180) * 0.06) (3 * Real.pi / 180) =
        3 * Real.pi / 180
      unfold dampenChange
      apply clamp_eq_hi
      · linarith
      · linarith
    rw [hD, hch] at hy hby
    rw [hcb] at hby
    have hH : (updateLookAtTarget c3State 0 ⟨0, 0, 0⟩ ⟨0, 0, -1⟩).1.headYaw =
        36 * Real.pi / 180 + 3 * Real.pi / 180 := by
      rw [hy]
      apply clamp_eq_of_mem
      · show -(160 * Real.pi / 180 + 35 * Real.pi / 180) ≤
          36 * Real.pi / 180 + 3 * Real.pi / 180
        linarith
      · show 36 * Real.pi / 180 + 3 * Real.pi / 180 ≤
          160 * Real.pi / 180 + 35 * Real.pi / 180
        linarith
    have hr1pos : (0 : ℝ) < 36 * Real.pi / 180 + 3 * Real.pi / 180 - 0 := by linarith
    have hval : bodyNext (36 * Real.pi / 180) 0 (3 * Real.pi / 180) ≤
        32 / 25 * (Real.pi / 180) := by
      unfold bodyNext
      rw [abs_of_pos hr1pos, Real.sign_of_pos hr1pos]
      rw [if_pos (show 36 * Real.pi / 180 + 3 * Real.pi / 180 - 0 > MAX_HEAD_YAW by
        rw [hMHe]; linarith)]
      rw [zero_add, hMHe]
      have hBSe : BODY_SMOOTHING = 0.04 := rfl
      rw [hBSe, hMYe]
      have hXeq : 1 * (36 * Real.pi / 180 + 3 * Real.pi / 180 - 0 - 35 * Real.pi / 180) *
          0.04 * 8 = 32 / 25 * (Real.pi / 180) := by ring
      rw [hXeq]
      exact dampenChange_le_self _ _ (by linarith)
    have hclose := bodyNext_close (36 * Real.pi / 180) 0 (3 * Real.pi / 180)
    rw [sub_zero, hMYe, abs_le] at hclose
    have hB : (updateLookAtTarget c3State 0 ⟨0, 0, 0⟩ ⟨0, 0, -1⟩).1.bodyYaw =
        bodyNext (36 * Real.pi / 180) 0 (3 * Real.pi / 180) := by
      rw [hby]
      apply clamp_eq_of_mem
      · linarith [hclose.1, hclose.2, hMBe]
      · linarith [hclose.1, hclose.2, hMBe]
    unfold relExcess
    rw [hH, hB, hch, hcb, sub_zero]
    rw [abs_of_pos (by positivity : (0 : ℝ) < 36 * Real.pi / 180)]
    rw [abs_of_pos (show (0 : ℝ) < 36 * Real.pi / 180 + 3 * Real.pi / 180 -
        bodyNext (36 * Real.pi / 180) 0 (3 * Real.pi / 180) by linarith [hclose.2])]
    linarith [hval]

/-- Amended claim C3: if at tick N the head-relative yaw excess
`|headYaw - bodyYaw| - MAX_HEAD_YAW` is at least
`(17/8) * MAX_YAW_CHANGE_PER_FRAME` (about 6.4 degrees), then at tick N+1 the
excess is non-increasing, for every target (held or not); for smaller
positive excesses the excess can still grow while the head turns toward a
distant target. -/
theorem relative_yaw_excess_monotone_above_threshold (s : TrackingState) (time : ℝ)
    (centerPos targetPos : Vec3)
    (hb : |s.bodyYaw| ≤ MAX_BODY_YAW)
    (he : 17 / 8 * MAX_YAW_CHANGE_PER_FRAME ≤ relExcess s) :
    relExcess (updateLookAtTarget s time centerPos targetPos).1 ≤ relExcess s := by
  obtain ⟨hy, hby⟩ := updateLookAtTarget_yawBody s time centerPos targetPos
  unfold relExcess at he ⊢
  rw [hy, hby]
  exact relExcess_step_core s.headYaw s.bodyYaw _
    (abs_dampenChange_le _ _ MAX_YAW_CHANGE_nonneg) hb (by linarith)

/-- Witness for the amended C3 at a concrete state with excess 45 degrees. -/
theorem relative_yaw_excess_monotone_above_threshold_witness :
    |c3wState.bodyYaw| ≤ MAX_BODY_YAW ∧
    17 / 8 * MAX_YAW_CHANGE_PER_FRAME ≤ relExcess c3wState ∧
    relExcess (updateLookAtTarget c3wState 0 ⟨0, 0, 0⟩ ⟨0, 0, -1⟩).1 ≤ relExcess c3wState := by
  have hpi := Real.pi_pos
  have h1 : |c3wState.bodyYaw| ≤ MAX_BODY_YAW := by
    show |(0 : ℝ)| ≤ MAX_BODY_YAW
    rw [abs_zero]
    show (0 : ℝ) ≤ 160 * Real.pi / 180
    positivity
  have h2 : 17 / 8 * MAX_YAW_CHANGE_PER_FRAME ≤ relExcess c3wState := by
    show 17 / 8 * MAX_YAW_CHANGE_PER_FRAME ≤ |c3wState.headYaw - c3wState.bodyYaw| - MAX_HEAD_YAW
    have hch : c3wState.headYaw = 80 * Real.pi / 180 := rfl
    have hcb : c3wState.bodyYaw = 0 := rfl
    rw [hch, hcb, sub_zero, abs_of_pos (by positivity : (0 : ℝ) < 80 * Real.pi / 180)]
    show 17 / 8 * (3 * Real.pi / 180) ≤ 80 * Real.pi / 180 - 35 * Real.pi / 180
    linarith
  exact ⟨h1, h2,
    relative_yaw_excess_monotone_above_threshold c3wState 0 ⟨0, 0, 0⟩ ⟨0, 0, -1⟩ h1 h2⟩

end


